import Mathlib

/-!
Verification development for the `pythoneer` coding-agent core.

This file gives a shallow embedding, in Lean 4, of the parts of the
`pythoneer` repository that the specification's testable claims are about:

* the versioned in-memory codebase (`src/pythoneer/codebase.py`);
* the tool layer: parameter descriptors, argument validation, and the
  per-tool execution bodies (`src/pythoneer/tools/base.py`,
  `src/pythoneer/tools/tools.py`);
* the observation record (`src/pythoneer/tools/observations.py`);
* the message log and its two-tier rendering (`src/pythoneer/messages.py`);
* the trajectory recorder (`src/pythoneer/trajectory.py`);
* the step loop (`src/pythoneer/agent.py`).

Python objects are modelled as pure data; in-place mutation becomes explicit
state passing; a raised exception becomes an `Except PyExc` error value.
External collaborators (the language-model call, the Docker sandbox, the
ruff linter, configuration/prompt loading) appear as parameters, as the
specification treats them as opaque boundary functions.
-/

/-- The Python exceptions that the embedded code can raise. -/
inductive PyExc where
  | valueError (msg : String)
  | attributeError (name : String)
  | keyError (key : String)
  | typeError (msg : String)
  | unboundLocalError (name : String)
  deriving DecidableEq, Repr

/-- Python values appearing as tool arguments (JSON-ish scalars and
string lists; the only kinds the tools of this repository use). -/
inductive PyValue where
  | str (s : String)
  | int (n : Int)
  | bool (b : Bool)
  | listStr (xs : List String)
  deriving DecidableEq, Repr

/-- Model of `type(value).__name__`, as used by `Tool._validate_argument_types`. -/
def PyValue.typeName : PyValue → String
  | .str _ => "str"
  | .int _ => "int"
  | .bool _ => "bool"
  | .listStr _ => "list"

/-- A Python `dict` with string keys, modelled as an insertion-ordered
association list (Python dicts preserve insertion order). -/
abbrev PyDict (α : Type) : Type := List (String × α)

/-- Dict lookup `d[k]`, returning `none` when the key is absent. -/
def pyDictGet? {α : Type} (d : PyDict α) (k : String) : Option α :=
  (d.find? (fun kv => kv.1 = k)).map (fun kv => kv.2)

/-- Dict assignment `d[k] = v`: replace the value in place when the key exists
(keeping its position), otherwise append the new binding at the end — Python
dict assignment semantics on a duplicate-free association list. -/
def pyDictSet {α : Type} (d : PyDict α) (k : String) (v : α) : PyDict α :=
  match d with
  | [] => [(k, v)]
  | kv :: rest => if kv.1 = k then (k, v) :: rest else kv :: pyDictSet rest k v

/-- Key membership `k in d`, test on keys. -/
def pyDictHasKey {α : Type} (d : PyDict α) (k : String) : Bool :=
  d.any (fun kv => kv.1 = k)

/-- Tool arguments: the keyword-argument dict handed to a tool. -/
abbrev ToolArgs : Type := PyDict PyValue

/-- Truthiness of an optional string (`None` and `""` are falsy). -/
def pyTruthyStrOpt : Option String → Bool
  | none => false
  | some s => s ≠ ""

/-- Truthiness of an optional list (`None` and `[]` are falsy), as used on
the `lint_results` local in `EditFileTool._use` / `CreateFileTool._use`. -/
def pyTruthyListOpt : Option (List String) → Bool
  | none => false
  | some [] => false
  | some (_ :: _) => true

/-- Python `str(x)` for an optional string: Python formats `None` as `"None"`.
Used when `next_step_prompt_template.format(open_file=...)` receives the
open-file pointer. -/
def pyStrOfOpt : Option String → String
  | none => "None"
  | some s => s

/-- Python `s.startswith(pre)`, computed structurally on the character
lists so that concrete instances evaluate inside the kernel. -/
def pyStartsWith (s pre : String) : Bool :=
  pre.data.isPrefixOf s.data

/-- Python `s.endswith(suf)`, computed structurally on the character lists. -/
def pyEndsWith (s suf : String) : Bool :=
  suf.data.reverse.isPrefixOf s.data.reverse

/-- Python `s[n:]`. -/
def pyDropLeft (s : String) (n : Nat) : String :=
  ⟨s.data.drop n⟩

/-- Python `s[:-n]` (for `n` at most the length). -/
def pyDropRight (s : String) (n : Nat) : String :=
  ⟨s.data.take (s.data.length - n)⟩

/-- Python `s.lstrip()`: drop leading whitespace. -/
def pyLStrip (s : String) : String :=
  ⟨s.data.dropWhile Char.isWhitespace⟩

/-! ## Codebase (`src/pythoneer/codebase.py`) -/

/-- Python class `SourceFile`: a tracked file with its append-only version list
(`codebase.py` lines 96-138). The constructor appends the initial
contents, so `versions` is nonempty for every constructed file. -/
structure SourceFile where
  relativeFilePath : String
  versions : List String
  deriving DecidableEq, Repr

/-- The `SourceFile.contents` property: `self.versions[-1]`.  `versions` is
nonempty by construction, so the default is never read. -/
def SourceFile.contents (f : SourceFile) : String :=
  f.versions.getLastD ""

/-- Python class `Codebase`: mapping of relative file paths to `SourceFile` objects. -/
structure Codebase where
  files : PyDict SourceFile
  deriving DecidableEq, Repr

/-- Embeds `Codebase.PATTERNS` (`codebase.py` lines 12-13): glob patterns of the
source files ingested at construction; both `.py` and `.toml` files are
tracked. -/
def Codebase.patternsList : List String := ["**/*.py", "**/*.toml"]

/-- Embeds `Codebase.add_file`: construct a fresh `SourceFile` with a single
version and assign it into the dict (overwriting any existing entry, as
Python dict assignment does). -/
def Codebase.add_file (cb : Codebase) (relativeFilePath fileContents : String) : Codebase :=
  ⟨pyDictSet cb.files relativeFilePath ⟨relativeFilePath, [fileContents]⟩⟩

/-- Embeds `Codebase.retrieve_file`: `self.files[relative_file_path]`; raises
`KeyError` when the path is not tracked. -/
def Codebase.retrieve_file (cb : Codebase) (relativeFilePath : String) :
    Except PyExc SourceFile :=
  match pyDictGet? cb.files relativeFilePath with
  | some f => .ok f
  | none => .error (.keyError relativeFilePath)

/-- Embeds `Codebase.edit_file`: `self.files[path].update_contents(contents)` —
appends a new version to the file found at `path`; raises `KeyError` when
the path is not tracked. -/
def Codebase.edit_file (cb : Codebase) (relativeFilePath contents : String) :
    Except PyExc Codebase :=
  match pyDictGet? cb.files relativeFilePath with
  | some f =>
      .ok ⟨pyDictSet cb.files relativeFilePath
            ⟨f.relativeFilePath, f.versions ++ [contents]⟩⟩
  | none => .error (.keyError relativeFilePath)

/-- Embeds `Codebase.get_relative_file_paths`: `list(self.files.keys())`. -/
def Codebase.get_relative_file_paths (cb : Codebase) : List String :=
  cb.files.map (fun kv => kv.1)

/-- Embeds `Codebase.formatted_relative_file_paths`: bulleted newline-joined
listing of the tracked paths. -/
def Codebase.formatted_relative_file_paths (cb : Codebase) : String :=
  String.intercalate "\n"
    (cb.get_relative_file_paths.map (fun p => "* " ++ p))

/-- Embeds `Codebase.write_codebase_to_disk`, observed at the value level: the
durable snapshot writes one file per tracked path using its latest
version. -/
def Codebase.diskSnapshot (cb : Codebase) : List (String × String) :=
  cb.files.map (fun kv => (kv.1, kv.2.contents))

/-- The version list currently recorded for `path` (`[]` when the path is
not tracked). -/
def versionsOf (cb : Codebase) (path : String) : List String :=
  match pyDictGet? cb.files path with
  | some f => f.versions
  | none => []

/-- The current contents recorded for `path`, i.e. the `contents` property
of its `SourceFile` (`none` when the path is not tracked). -/
def contentsOf (cb : Codebase) (path : String) : Option String :=
  (pyDictGet? cb.files path).map SourceFile.contents

/-! ## Observations (`src/pythoneer/tools/observations.py`) -/

/-- Python class `Observation`: the record a tool returns after use, with the
defaults of `Observation.__init__`. -/
structure Observation where
  observationDescription : String
  summarisedObservationDescription : String
  terminalOutput : Bool := false
  terminalContent : Option String := none
  fileViewerChanged : Bool := false
  fileViewerNewContent : Option String := none
  reviewComment : Option String := none
  deriving DecidableEq, Repr

/-! ## Parameter descriptors (`src/pythoneer/tools/base.py` lines 17-24) -/

/-- Python dataclass `Parameter`: the fields declared in `base.py`. There is
no enumeration field. -/
structure Parameter where
  name : String
  type : String
  description : String
  required : Bool := true
  deriving DecidableEq, Repr

/-- Keyword arguments accepted by the generated `Parameter.__init__`: exactly
the declared dataclass fields. -/
def parameterInitKeywords : List String := ["name", "type", "description", "required"]

/-- Calling `Parameter(...)` with keyword arguments, as the tool class bodies
in `tools.py` do. A keyword outside the declared dataclass fields makes the
generated `__init__` raise `TypeError` (Python dataclass semantics). -/
def mkParameter (kwargs : PyDict PyValue) : Except PyExc Parameter :=
  match kwargs.find? (fun kv => !(parameterInitKeywords.contains kv.1)) with
  | some kv =>
      .error (.typeError ("Parameter.__init__() got an unexpected keyword argument \x27" ++ kv.1 ++ "\x27"))
  | none =>
      match pyDictGet? kwargs "name", pyDictGet? kwargs "type", pyDictGet? kwargs "description" with
      | some (.str n), some (.str t), some (.str d) =>
          .ok { name := n, type := t, description := d,
                required := match pyDictGet? kwargs "required" with
                  | some (.bool b) => b
                  | _ => true }
      | _, _, _ => .error (.typeError "Parameter.__init__() missing required positional arguments")

/-! ## Declared parameter lists of the tools (`src/pythoneer/tools/tools.py`)

The lists below carry the fields that `Parameter` declares. The
`RunPythonScriptTool` and `RunAllTestsTool` class bodies additionally pass an
`enum=` keyword; that construction is embedded separately (fallibly) as
`runPythonScriptParametersSource` and `runAllTestsParametersSource`, because
`Parameter` has no such field. -/

/-- Parameter list of `OpenFileTool`. -/
def openFileParameters : List Parameter :=
  [⟨"file_path", "string", "The full path to the file to open. e.g., \x27data/processing.py\x27", true⟩]

/-- Parameter list of `EditFileTool`. -/
def editFileParameters : List Parameter :=
  [⟨"commit_message", "string",
    "The commit message is a short description of the changes you made to the file. This should be detailed enough to allow other develoeprs to understand the changes you made (without having to read the entire diff), but succinct enough to fit in a a couple of sentences.",
    true⟩,
   ⟨"new_file_contents", "string",
    "The new contents of the file. This should be the full, updated contents of the file. This will be used to update the file in the codebase (the contents of the file open in the file editor will be replaced with this new content).",
    true⟩]

/-- Parameter list of `CreateFileTool`. -/
def createFileParameters : List Parameter :=
  [⟨"file_path", "string",
    "The full path to the new file to create, e.g., \x27data/new_file.py\x27. If the directory does not exist, it will be created.",
    true⟩,
   ⟨"file_contents", "string", "The full contents of the new file.", true⟩]

/-- Parameter list of `RunPythonScriptTool` restricted to declared
`Parameter` fields (see `runPythonScriptParametersSource` for the class body
as written). -/
def runPythonScriptParameters : List Parameter :=
  [⟨"script_path", "string", "The full path to the Python script to run. e.g., \x27data/processing.py\x27", true⟩,
   ⟨"script_arguments", "string",
    "The arguments to pass to the Python script when running it, if any. These should be formatted as a string, e.g., \x27--arg1 value1 --arg2 value2\x27. The arguments should be formatted as they would be passed on the command line.This field is not required if the script does not take any arguments, or if no arguments are to be passed.",
    false⟩,
   ⟨"environment", "string",
    "The name of the environment to run the script in, either \x27python2\x27 or \x27python3\x27.The \x27python2\x27 environment should be used when running Python 2 scripts, and the \x27python3\x27 environment should be used when running Python 3 scripts.",
    true⟩]

/-- Parameter list of `RunAllTestsTool` restricted to declared `Parameter`
fields (see `runAllTestsParametersSource` for the class body as written). -/
def runAllTestsParameters : List Parameter :=
  [⟨"environment", "string",
    "The name of the environment to run the tests in, either \x27python2\x27 or \x27python3\x27.The \x27python2\x27 environment should be used when working with a codebase that uses Python 2, and the \x27python3\x27 environment should be used when working with a codebase that uses Python 3.",
    true⟩]

/-- Parameter list of `CompleteTaskTool`. -/
def completeTaskParameters : List Parameter := []

/-- The `RunPythonScriptTool.PARAMETERS` class body as written in
`tools.py` lines 239-267: three `Parameter(...)` calls, the third passing
`enum=["python2", "python3"]`. Evaluating the class body runs these calls
when the module is imported. -/
def runPythonScriptParametersSource : Except PyExc (List Parameter) := do
  let p1 ← mkParameter
    [("name", .str "script_path"), ("type", .str "string"),
     ("description", .str "The full path to the Python script to run. e.g., \x27data/processing.py\x27")]
  let p2 ← mkParameter
    [("name", .str "script_arguments"), ("type", .str "string"),
     ("description", .str "The arguments to pass to the Python script when running it, if any. These should be formatted as a string, e.g., \x27--arg1 value1 --arg2 value2\x27. The arguments should be formatted as they would be passed on the command line.This field is not required if the script does not take any arguments, or if no arguments are to be passed."),
     ("required", .bool false)]
  let p3 ← mkParameter
    [("name", .str "environment"), ("type", .str "string"),
     ("description", .str "The name of the environment to run the script in, either \x27python2\x27 or \x27python3\x27.The \x27python2\x27 environment should be used when running Python 2 scripts, and the \x27python3\x27 environment should be used when running Python 3 scripts."),
     ("enum", .listStr ["python2", "python3"])]
  .ok [p1, p2, p3]

/-- The `RunAllTestsTool.PARAMETERS` class body as written in `tools.py`
lines 410-422: one `Parameter(...)` call passing `enum=["python2",
"python3"]`. -/
def runAllTestsParametersSource : Except PyExc (List Parameter) := do
  let p1 ← mkParameter
    [("name", .str "environment"), ("type", .str "string"),
     ("description", .str "The name of the environment to run the tests in, either \x27python2\x27 or \x27python3\x27.The \x27python2\x27 environment should be used when working with a codebase that uses Python 2, and the \x27python3\x27 environment should be used when working with a codebase that uses Python 3."),
     ("enum", .listStr ["python2", "python3"])]
  .ok [p1]

/-! ## Generic argument validation (`src/pythoneer/tools/base.py`) -/

/-- Embeds `Tool._validate_all_parameters_present`: the first required
parameter missing from the supplied arguments raises `ValueError`. -/
def validateAllParametersPresent (toolClassName : String) (params : List Parameter)
    (args : ToolArgs) : Except PyExc Unit :=
  match params.find? (fun p => p.required && !(pyDictHasKey args p.name)) with
  | some p =>
      .error (.valueError ("Tool " ++ toolClassName ++ " is missing required argument: " ++ p.name))
  | none => .ok ()

/-- Embeds `Tool._validate_argument_types`: each supplied argument must have
the declared type name (with `"string"` normalised to `"str"`). -/
def validateArgumentTypes : List Parameter → ToolArgs → Except PyExc Unit
  | [], _ => .ok ()
  | p :: rest, args =>
    match pyDictGet? args p.name with
    | none => validateArgumentTypes rest args
    | some v =>
      let expectedType := if p.type = "string" then "str" else p.type
      let actualType := v.typeName
      if actualType ≠ expectedType then
        .error (.valueError ("Invalid argument type for " ++ p.name ++ ". Expected " ++
          expectedType ++ ", got " ++ actualType ++ "."))
      else validateArgumentTypes rest args

/-- Python `str(value)` as interpolated into error messages. -/
def PyValue.pyStr : PyValue → String
  | .str s => s
  | .int n => toString n
  | .bool b => if b then "True" else "False"
  | .listStr xs => "[" ++ String.intercalate ", " (xs.map (fun x => "\x27" ++ x ++ "\x27")) ++ "]"

/-- Python membership `value in xs` for a list of strings. -/
def PyValue.inStrList (v : PyValue) (xs : List String) : Bool :=
  match v with
  | .str s => xs.contains s
  | _ => false

/-! ## Agent state (`src/pythoneer/agent.py`, `src/pythoneer/trajectory.py`,
`src/pythoneer/messages.py` data) -/

/-- Python dataclass `TrajectoryStep` (`trajectory.py` lines 52-99). -/
structure TrajectoryStep where
  stepNumber : Nat
  thought : String
  toolName : String
  toolArguments : ToolArgs
  terminalOutput : Bool := false
  terminalContent : Option String := none
  fileViewerChanged : Bool := false
  openFileName : Option String := none
  fileViewerContent : Option String := none
  reviewComment : Option String := none
  deriving DecidableEq, Repr

/-- The message kinds held by `MessageLog` (`messages.py`): the task
descriptor (`InstanceMessage`), a proposal (`AssistantMessage`) and an
outcome (`UserMessage`), with the fields their constructors store. -/
inductive Message where
  | instanceMsg (instancePrompt : String)
  | assistantMsg (thought toolId toolName : String) (toolArguments : ToolArgs)
  | userMsg (toolId observation summarisedObservation nextStepPrompt : String)
      (reviewComment : Option String)
  deriving DecidableEq, Repr

/-- The mutable state owned by `Agent` (`agent.py` `__init__`): the codebase,
the message log, the trajectory, the step counter, the completion flag and
the open-file pointer. `errorOccured` models the `error_occured` local of
`Agent.run`; `writtenCodebase` / `writtenTrajectory` record the durable
artifacts that `Agent.finish` flushes to disk. -/
structure AgentState where
  codebase : Codebase
  messageLog : List Message
  trajectory : List TrajectoryStep
  stepNumber : Nat
  taskCompleted : Bool
  errorOccured : Bool
  openFileRelativePath : Option String
  writtenCodebase : Option (List (String × String)) := none
  writtenTrajectory : Option (List TrajectoryStep) := none
  deriving DecidableEq, Repr

/-- Captured result of one sandboxed process run: the two stream buffers and
the process exit status. -/
structure SandboxResult where
  stdout : String
  stderr : String
  exitCode : Nat
  deriving DecidableEq, Repr

/-- External collaborators, treated as opaque boundary functions: the
next-step prompt template (applied to the formatted open-file pointer), the
ruff linter (`lint_code`: code string to violations, `None` when ruff prints
nothing), and the Docker sandbox runs keyed by image, script and codebase
snapshot. -/
structure Config where
  nextStepPromptTemplate : String → String
  lint : String → Option (List String)
  runScript : String → String → String → Codebase → SandboxResult
  runTests : String → Codebase → SandboxResult

/-! ## Per-tool domain validation (`_validate_argument_values`) -/

/-- Embeds `OpenFileTool._validate_argument_values`: the path must already be
tracked by the codebase. -/
def OpenFileTool.validateArgumentValues (cb : Codebase) (args : ToolArgs) : Except PyExc Unit :=
  match pyDictGet? args "file_path" with
  | none => .error (.keyError "file_path")
  | some fp =>
    if !(fp.inStrList cb.get_relative_file_paths) then
      .error (.valueError ("The file \x27" ++ fp.pyStr ++ "\x27 does not exist in the codebase. " ++
        "The files in the codebase are:\n" ++ cb.formatted_relative_file_paths))
    else .ok ()

/-- Embeds `EditFileTool._validate_argument_values`: the body is `pass` — no
domain check at all (in particular no currently-open-file check). -/
def EditFileTool.validateArgumentValues (_cb : Codebase) (_args : ToolArgs) : Except PyExc Unit :=
  .ok ()

/-- Embeds `CreateFileTool._validate_argument_values`: the path must not
already be tracked by the codebase. -/
def CreateFileTool.validateArgumentValues (cb : Codebase) (args : ToolArgs) : Except PyExc Unit :=
  match pyDictGet? args "file_path" with
  | none => .error (.keyError "file_path")
  | some fp =>
    if fp.inStrList cb.get_relative_file_paths then
      .error (.valueError ("The file \x27" ++ fp.pyStr ++ "\x27 already exists in the codebase. " ++
        "The files in the codebase are:\n" ++ cb.formatted_relative_file_paths))
    else .ok ()

/-- The `ENVIRONMENT_TO_IMAGE` table shared by `RunPythonScriptTool` and
`RunAllTestsTool`. -/
def environmentToImage : PyDict String :=
  [("python2", "python2-base:latest"), ("python3", "python3-base:latest")]

/-- Python `repr` of `ENVIRONMENT_TO_IMAGE.keys()`, as interpolated into the
invalid-environment error message. -/
def environmentKeysRepr : String := "dict_keys([\x27python2\x27, \x27python3\x27])"

/-- Embeds `RunPythonScriptTool._validate_argument_values`: the script must be
tracked and the environment must be a key of `ENVIRONMENT_TO_IMAGE`. -/
def RunPythonScriptTool.validateArgumentValues (cb : Codebase) (args : ToolArgs) :
    Except PyExc Unit :=
  match pyDictGet? args "script_path" with
  | none => .error (.keyError "script_path")
  | some sp =>
    if !(sp.inStrList cb.get_relative_file_paths) then
      .error (.valueError ("The file \x27" ++ sp.pyStr ++ "\x27 does not exist in the codebase." ++
        "The files in the codebase are: " ++ cb.formatted_relative_file_paths))
    else
      match pyDictGet? args "environment" with
      | none => .error (.keyError "environment")
      | some env =>
        if !(env.inStrList (environmentToImage.map (fun kv => kv.1))) then
          .error (.valueError ("The environment \x27" ++ env.pyStr ++ "\x27 is not valid. " ++
            "Valid environments are: " ++ environmentKeysRepr))
        else .ok ()

/-- Embeds `RunAllTestsTool._validate_argument_values`: the environment must
be a key of `ENVIRONMENT_TO_IMAGE`. -/
def RunAllTestsTool.validateArgumentValues (_cb : Codebase) (args : ToolArgs) :
    Except PyExc Unit :=
  match pyDictGet? args "environment" with
  | none => .error (.keyError "environment")
  | some env =>
    if !(env.inStrList (environmentToImage.map (fun kv => kv.1))) then
      .error (.valueError ("The environment \x27" ++ env.pyStr ++ "\x27 is not valid. " ++
        "Valid environments are: " ++ environmentKeysRepr))
    else .ok ()

/-- Embeds `CompleteTaskTool`: no `_validate_argument_values` override, so the
base-class `pass` applies. -/
def CompleteTaskTool.validateArgumentValues (_cb : Codebase) (_args : ToolArgs) :
    Except PyExc Unit :=
  .ok ()

/-! ## Tool execution bodies (`_use`) -/

/-- Subscript access `self.arguments[k]` expecting a string. After
`validate_arguments` succeeded, a `"string"`-typed parameter always holds a
`str`; the `typeError` branch models the dynamic failure Python would hit on
a non-string value. -/
def argStr (args : ToolArgs) (k : String) : Except PyExc String :=
  match pyDictGet? args k with
  | some (.str s) => .ok s
  | some _ => .error (.typeError (k ++ " is not a str"))
  | none => .error (.keyError k)

/-- Python `self.arguments.get(k, "")`, as used for `script_arguments`. -/
def argStrD (args : ToolArgs) (k : String) : String :=
  match pyDictGet? args k with
  | some (.str s) => s
  | _ => ""

/-- Embeds `OpenFileTool._use`: set the open-file pointer, read the latest
contents and describe them. -/
def OpenFileTool.useImpl (args : ToolArgs) (s : AgentState) :
    AgentState × Except PyExc Observation :=
  match argStr args "file_path" with
  | .error e => (s, .error e)
  | .ok filePath =>
    let s := { s with openFileRelativePath := some filePath }
    match s.codebase.retrieve_file filePath with
    | .error e => (s, .error e)
    | .ok f =>
      let fileContents := f.contents
      let od := "Opened the file \x27" ++ filePath ++ "\x27. Contents of " ++ filePath ++
        ": \n```python\n" ++ fileContents ++ "\n```"
      let sod := "Opened the file \x27" ++ filePath ++ "\x27"
      (s, .ok { observationDescription := od, summarisedObservationDescription := sod,
                fileViewerChanged := true, fileViewerNewContent := some fileContents })

/-- The code-fence stripping of `EditFileTool._use` (`tools.py` lines
111-115): drop a leading markdown fence with language tag, a trailing fence,
and leading whitespace. -/
def editFileStrip (newFileContents : String) : String :=
  let c := if pyStartsWith newFileContents "```python" then pyDropLeft newFileContents 9
           else newFileContents
  let c := if pyEndsWith c "```" then pyDropRight c 3 else c
  pyLStrip c

/-- The review comment `EditFileTool._use` builds from lint violations. -/
def editFileReviewComment (lintResults : List String) : String :=
  "The code you provided has the following issues:\n* " ++
  String.intercalate "\n* " lintResults ++
  "\n\nPlease address these issues before continuing."

/-- Embeds `EditFileTool._use` (`tools.py` lines 105-152): strip fences,
append a new version of the open file, lint Python files, and build the
observation. The local `python_file` is assigned only on the `.py` branch,
so building the description for any other file raises `UnboundLocalError`.
An open-file pointer of `None` makes `codebase.edit_file` raise `KeyError`. -/
def EditFileTool.useImpl (cfg : Config) (args : ToolArgs) (s : AgentState) :
    AgentState × Except PyExc Observation :=
  match argStr args "commit_message" with
  | .error e => (s, .error e)
  | .ok commitMessage =>
    match argStr args "new_file_contents" with
    | .error e => (s, .error e)
    | .ok newFileContents =>
      match s.openFileRelativePath with
      | none => (s, .error (.keyError "None"))
      | some filePath =>
        let newContents := editFileStrip newFileContents
        match s.codebase.edit_file filePath newContents with
        | .error e => (s, .error e)
        | .ok cb =>
          let s := { s with codebase := cb }
          if pyEndsWith filePath ".py" then
            let lintResults := cfg.lint newContents
            let reviewComment :=
              if pyTruthyListOpt lintResults then
                some (editFileReviewComment (lintResults.getD []))
              else none
            let od := "Edited the file \x27" ++ filePath ++ "\x27.\nCommit message: \x27" ++
              commitMessage ++ "\x27.\nNew contents of " ++ filePath ++ ":\n```python\n" ++
              newContents ++ "\n```"
            let sod := "Edited the file \x27" ++ filePath ++ "\x27.\nCommit message: " ++
              commitMessage
            (s, .ok { observationDescription := od, summarisedObservationDescription := sod,
                      fileViewerChanged := true, fileViewerNewContent := some newContents,
                      reviewComment := reviewComment })
          else
            (s, .error (.unboundLocalError "python_file"))

/-- The review comment `CreateFileTool._use` builds from lint violations. -/
def createFileReviewComment (lintResults : List String) : String :=
  "The code you provided for the new file has the following issues:\n* " ++
  String.intercalate "\n* " lintResults ++
  "\n\nPlease address these issues before continuing."

/-- Embeds `CreateFileTool._use` (`tools.py` lines 189-231): add the file,
open it, lint Python files, and build the observation. As in
`EditFileTool._use`, the local `python_file` is assigned only on the `.py`
branch, so a non-Python path raises `UnboundLocalError` after the state has
already been mutated. -/
def CreateFileTool.useImpl (cfg : Config) (args : ToolArgs) (s : AgentState) :
    AgentState × Except PyExc Observation :=
  match argStr args "file_path" with
  | .error e => (s, .error e)
  | .ok filePath =>
    match argStr args "file_contents" with
    | .error e => (s, .error e)
    | .ok fileContents =>
      let s := { s with codebase := s.codebase.add_file filePath fileContents,
                        openFileRelativePath := some filePath }
      if pyEndsWith filePath ".py" then
        let lintResults := cfg.lint fileContents
        let reviewComment :=
          if pyTruthyListOpt lintResults then
            some (createFileReviewComment (lintResults.getD []))
          else none
        let od := "Created a new file \x27" ++ filePath ++
          "\x27, and opened it in the file editor.\nThe codebase now contains the following files:\n" ++
          s.codebase.formatted_relative_file_paths ++ "\n\nContents of " ++ filePath ++
          ":\n```python\n" ++ fileContents ++ "\n```"
        let sod := "Created a new file \x27" ++ filePath ++ "\x27"
        (s, .ok { observationDescription := od, summarisedObservationDescription := sod,
                  fileViewerChanged := true, fileViewerNewContent := some fileContents,
                  reviewComment := reviewComment })
      else
        (s, .error (.unboundLocalError "python_file"))

/-- Embeds `RunPythonScriptTool._create_observation_description` (`tools.py`
lines 355-402): the full and summarised descriptions are chosen by the
truthiness of the captured `stdout` and `stderr` strings alone. -/
def runPythonScriptCreateObservationDescription
    (scriptPath environment stdout stderr : String) : String × String :=
  let ranLine := "Ran the Python script \x27" ++ scriptPath ++ "\x27 in the \x27" ++
    environment ++ "\x27 environment."
  if stdout != "" && stderr != "" then
    (ranLine ++ "\nstdout:\n```\n" ++ stdout ++ "\n```\nstderr:\n```\n" ++ stderr ++ "\n```",
     ranLine)
  else if stdout != "" then
    (ranLine ++ "\nstdout:\n```\n" ++ stdout ++ "\n```",
     ranLine ++ "The script ran successfully with no errors.")
  else if stderr != "" then
    (ranLine ++ "\nstderr:\n```\n" ++ stderr ++ "\n```",
     ranLine ++ "The script ran with errors.")
  else
    (ranLine ++ "The script ran successfully with no output.",
     ranLine ++ "The script ran successfully with no output.")

/-- Embeds the tail of `RunPythonScriptTool._use` (`tools.py` lines 321-353)
once the sandboxed process has produced its streams and exit status:
`subprocess.run(command, check=True)` is wrapped in
`try: ... except CalledProcessError: pass`, so `exitCode` is discarded and
the observation depends only on the captured streams. -/
def runPythonScriptObservation (scriptPath environment stdout stderr : String)
    (exitCode : Nat) : Observation :=
  let _ := exitCode
  let (od, sod) := runPythonScriptCreateObservationDescription scriptPath environment stdout stderr
  let terminalContents :=
    if stdout != "" || stderr != "" then stdout ++ "\n" ++ stderr
    else "The script ran successfully with no output."
  { observationDescription := od, summarisedObservationDescription := sod,
    terminalOutput := true, terminalContent := some terminalContents }

/-- Embeds `RunPythonScriptTool._use`: resolve the Docker image, hand the
current codebase snapshot to the sandbox collaborator, and build the
observation from the captured result. -/
def RunPythonScriptTool.useImpl (cfg : Config) (args : ToolArgs) (s : AgentState) :
    AgentState × Except PyExc Observation :=
  match argStr args "script_path" with
  | .error e => (s, .error e)
  | .ok scriptPath =>
    let scriptArguments := argStrD args "script_arguments"
    match argStr args "environment" with
    | .error e => (s, .error e)
    | .ok environment =>
      match pyDictGet? environmentToImage environment with
      | none => (s, .error (.keyError environment))
      | some dockerImage =>
        let r := cfg.runScript dockerImage scriptPath scriptArguments s.codebase
        (s, .ok (runPythonScriptObservation scriptPath environment r.stdout r.stderr r.exitCode))

/-- Embeds `RunAllTestsTool._create_observation_description` (`tools.py`
lines 510-539): branch on `tests_passed`; on failure, append the captured
streams (note the literal `\STDOUT` from the source's unescaped f-string). -/
def runAllTestsCreateObservationDescription
    (environment stdout stderr : String) (testsPassed : Bool) : String × String :=
  if testsPassed then
    let msg := "Ran all tests in the codebase in the \x27" ++ environment ++
      "\x27 environment.\nAll tests ran successfully with no errors."
    (msg, msg)
  else
    let base := "Ran all tests in the codebase in the \x27" ++ environment ++
      "\x27 environment.\nThere were errors when running the tests."
    let od := base ++
      (if stdout != "" then "\\STDOUT:\n```\n" ++ stdout ++ "\n```" else "") ++
      (if stderr != "" then "\nSTDERR:\n```\n" ++ stderr ++ "\n```" else "")
    (od, base)

/-- Embeds the tail of `RunAllTestsTool._use` (`tools.py` lines 476-508):
`tests_passed` is set from whether `subprocess.run(..., check=True)` raised
`CalledProcessError`, i.e. strictly from the process exit status. -/
def runAllTestsObservation (environment stdout stderr : String) (exitCode : Nat) :
    Observation :=
  let testsPassed := exitCode == 0
  let (od, sod) := runAllTestsCreateObservationDescription environment stdout stderr testsPassed
  let terminalContents :=
    if stdout != "" || stderr != "" then stdout ++ "\n" ++ stderr
    else "All tests ran successfully with no output."
  { observationDescription := od, summarisedObservationDescription := sod,
    terminalOutput := true, terminalContent := some terminalContents }

/-- Embeds `RunAllTestsTool._use`. -/
def RunAllTestsTool.useImpl (cfg : Config) (args : ToolArgs) (s : AgentState) :
    AgentState × Except PyExc Observation :=
  match argStr args "environment" with
  | .error e => (s, .error e)
  | .ok environment =>
    match pyDictGet? environmentToImage environment with
    | none => (s, .error (.keyError environment))
    | some dockerImage =>
      let r := cfg.runTests dockerImage s.codebase
      (s, .ok (runAllTestsObservation environment r.stdout r.stderr r.exitCode))

/-- Embeds `CompleteTaskTool._use`: set the completion flag. -/
def CompleteTaskTool.useImpl (s : AgentState) : AgentState × Except PyExc Observation :=
  ({ s with taskCompleted := true },
   .ok { observationDescription := "Task completed.",
         summarisedObservationDescription := "Task completed." })

/-! ## Generic dispatch (`Tool.use`, `src/pythoneer/tools/base.py` lines 64-91) -/

/-- Attribute names a `Tool` instance actually has: `__init__` assigns only
`self.arguments`. -/
def toolInstanceAttributes : List String := ["arguments"]

/-- Python attribute lookup on a `Tool` instance: `AttributeError` when the
name is not among the instance attributes. -/
def pyGetattr (attrs : List String) (name : String) : Except PyExc Unit :=
  if attrs.contains name then .ok () else .error (.attributeError name)

/-- The `except ValueError` branch of `Tool.use` constructs
`Observation(step=self.step, description=str(exc))`. Evaluating `self.step`
raises `AttributeError` before `Observation.__init__` is reached (and the
keyword arguments would not match `Observation.__init__` either). -/
def errorObservationConstruction : Except PyExc Observation :=
  match pyGetattr toolInstanceAttributes "step" with
  | .error e => .error e
  | .ok _ => .error (.typeError "Observation.__init__() got an unexpected keyword argument \x27step\x27")

/-- Embeds `Tool.use` as shipped: the `try` body is
`self.self.validate_arguments()`, and a `Tool` instance has no attribute
`self`, so the first thing the method does is raise `AttributeError`, which
the `except ValueError` clause does not catch. `underlying` stands for what
validation followed by `_use` would do from the `.ok` branch on. -/
def Tool.use (underlying : AgentState → AgentState × Except PyExc Observation)
    (s : AgentState) : AgentState × Except PyExc Observation :=
  match pyGetattr toolInstanceAttributes "self" with
  | .error (.valueError _) =>
      match errorObservationConstruction with
      | .error e => (s, .error e)
      | .ok obs => (s, .ok obs)
  | .error e => (s, .error e)
  | .ok _ => underlying s

/-- The dispatch path that `Tool.use`'s docstring documents (validate the
arguments against the agent, then execute `_use`; a `ValueError` from
validation is converted into an error observation). This is `Tool.use` with
the malformed receiver `self.self` replaced by `self`; the `except` branch
is kept as written, so it still raises `AttributeError` on `self.step`
(see `errorObservationConstruction`). Run-level claims are settled against
this dispatch so that they do not hold vacuously through the receiver bug,
which is settled separately. -/
def Tool.useDocumented (validate : AgentState → Except PyExc Unit)
    (underlying : AgentState → AgentState × Except PyExc Observation)
    (s : AgentState) : AgentState × Except PyExc Observation :=
  match validate s with
  | .error (.valueError _) =>
      match errorObservationConstruction with
      | .error e => (s, .error e)
      | .ok obs => (s, .ok obs)
  | .error e => (s, .error e)
  | .ok _ => underlying s

/-- Embeds `Tool.validate_arguments`: required-presence check, then the
per-tool domain check, then declared-type conformance.
(`_warn_unused_arguments` only logs, so it is a no-op here.) -/
def Tool.validateArguments (toolClassName : String) (params : List Parameter)
    (validateValues : Codebase → ToolArgs → Except PyExc Unit)
    (args : ToolArgs) (s : AgentState) : Except PyExc Unit := do
  validateAllParametersPresent toolClassName params args
  validateValues s.codebase args
  validateArgumentTypes params args

/-- Name-keyed dispatch: `ToolFactory.create_tool` (raising `ValueError` on
a registry miss) followed by the documented validate-then-execute path for
the six registered tools. -/
def dispatchToolCall (cfg : Config) (toolName : String) (args : ToolArgs)
    (s : AgentState) : AgentState × Except PyExc Observation :=
  if toolName = "open_file" then
    Tool.useDocumented
      (Tool.validateArguments "OpenFileTool" openFileParameters OpenFileTool.validateArgumentValues args)
      (OpenFileTool.useImpl args) s
  else if toolName = "edit_file" then
    Tool.useDocumented
      (Tool.validateArguments "EditFileTool" editFileParameters EditFileTool.validateArgumentValues args)
      (EditFileTool.useImpl cfg args) s
  else if toolName = "create_file" then
    Tool.useDocumented
      (Tool.validateArguments "CreateFileTool" createFileParameters CreateFileTool.validateArgumentValues args)
      (CreateFileTool.useImpl cfg args) s
  else if toolName = "run_python_script" then
    Tool.useDocumented
      (Tool.validateArguments "RunPythonScriptTool" runPythonScriptParameters RunPythonScriptTool.validateArgumentValues args)
      (RunPythonScriptTool.useImpl cfg args) s
  else if toolName = "run_all_tests" then
    Tool.useDocumented
      (Tool.validateArguments "RunAllTestsTool" runAllTestsParameters RunAllTestsTool.validateArgumentValues args)
      (RunAllTestsTool.useImpl cfg args) s
  else if toolName = "complete_task" then
    Tool.useDocumented
      (Tool.validateArguments "CompleteTaskTool" completeTaskParameters CompleteTaskTool.validateArgumentValues args)
      (fun s => CompleteTaskTool.useImpl s) s
  else
    (s, .error (.valueError ("Unknown tool: " ++ toolName)))

/-! ## Message rendering (`src/pythoneer/messages.py`) -/

/-- A content block of the model-call message shape. -/
inductive ContentBlock where
  | text (t : String)
  | toolUse (toolUseId toolName : String) (input : ToolArgs)
  | toolResult (toolUseId : String) (content : String)
  deriving DecidableEq, Repr

/-- A rendered message: role plus ordered content blocks. -/
structure JsonMessage where
  role : String
  content : List ContentBlock
  deriving DecidableEq, Repr

/-- The fixed placeholder that replaces `new_file_contents` in a summarised
`edit_file` proposal. -/
def editFileContentsPlaceholder : String :=
  "The full, updated contents of the file. Not shown here for brevity."

/-- Embeds `AssistantMessage.create_summarised_tool_arguments`: for an
`edit_file` proposal, keep the commit message and collapse the new contents
to the fixed placeholder; all other proposals are unchanged. (In the source
this is precomputed in `__init__`, raising `KeyError` when an `edit_file`
proposal lacks `commit_message`; that raise is modelled in `Agent.step`, so
the default here is never read for a constructed message.) -/
def createSummarisedToolArguments (toolName : String) (toolArguments : ToolArgs) : ToolArgs :=
  if toolName = "edit_file" then
    [("commit_message", (pyDictGet? toolArguments "commit_message").getD (.str "")),
     ("new_file_contents", .str editFileContentsPlaceholder)]
  else toolArguments

/-- Embeds `InstanceMessage.return_json_message`: a single text block,
identical at both fidelity tiers. -/
def instanceReturnJsonMessage (instancePrompt : String) : JsonMessage :=
  { role := "user", content := [.text instancePrompt] }

/-- Embeds `AssistantMessage.return_json_message`: thought text plus one
tool-use block whose input is the full or summarised arguments. -/
def assistantReturnJsonMessage (thought toolId toolName : String)
    (toolArguments : ToolArgs) (summarised : Bool) : JsonMessage :=
  let input := if summarised then createSummarisedToolArguments toolName toolArguments
               else toolArguments
  { role := "assistant",
    content := [.text thought, .toolUse toolId toolName input] }

/-- Embeds `UserMessage.return_json_message`: a tool-result block carrying
the full or summarised observation, then (when present and requested) the
review comment as a text block, then the next-step prompt as a text block. -/
def userReturnJsonMessage (toolId observation summarisedObservation nextStepPrompt : String)
    (reviewComment : Option String) (summarised includeReviewComment : Bool) : JsonMessage :=
  let toolResultContent := if summarised then summarisedObservation else observation
  let content := [ContentBlock.toolResult toolId toolResultContent]
  let content :=
    if pyTruthyStrOpt reviewComment && includeReviewComment then
      content ++ [ContentBlock.text (reviewComment.getD "")]
    else content
  let content := content ++ [ContentBlock.text nextStepPrompt]
  { role := "user", content := content }

/-- Renders one log entry at the given fidelity, dispatching on its kind as
`MessageLog.return_messages_list` does (user messages always get
`include_review_comment=True`). -/
def renderMessage : Message → Bool → JsonMessage
  | .instanceMsg p, _ => instanceReturnJsonMessage p
  | .assistantMsg thought toolId toolName args, summarised =>
      assistantReturnJsonMessage thought toolId toolName args summarised
  | .userMsg toolId obs sobs nsp rc, summarised =>
      userReturnJsonMessage toolId obs sobs nsp rc summarised true

/-- Embeds `MessageLog.return_messages_list` (`messages.py` lines 18-64):
with window `K`, entries at index below `N - K` render summarised and the
rest render full; with `K` absent, `summarise_until` is `0` and every entry
renders full. The subtraction is on Python ints, hence over `Int`. -/
def MessageLog.returnMessagesList (messages : List Message)
    (summariseBeforeLast : Option Int) : List JsonMessage :=
  let numMessages : Int := messages.length
  let summariseUntil : Int :=
    match summariseBeforeLast with
    | none => 0
    | some k => numMessages - k
  messages.enum.map (fun p => renderMessage p.2 (decide ((p.1 : Int) < summariseUntil)))

/-! ## Step loop (`src/pythoneer/agent.py`) -/

/-- One model call's outcome, as seen by `Agent.step`: either the call (or
`parse_tool_use_response`) raises, or it yields exactly one proposal. -/
inductive ModelTurn where
  | raises
  | propose (thought toolId toolName : String) (toolArguments : ToolArgs)

/-- Embeds `Agent.step` (`agent.py` lines 99-172): increment the step
counter, obtain the model response, append the assistant message, create and
use the tool, append the user message, and append the trajectory record. An
exception anywhere leaves the partially updated state and escapes to
`Agent.run`. -/
def Agent.step (cfg : Config) (turn : ModelTurn) (s0 : AgentState) :
    AgentState × Except PyExc Unit :=
  let s := { s0 with stepNumber := s0.stepNumber + 1 }
  match turn with
  | .raises => (s, .error (.valueError "model call failed"))
  | .propose thought toolId toolName toolArguments =>
    if toolName = "edit_file" && !(pyDictHasKey toolArguments "commit_message") then
      (s, .error (.keyError "commit_message"))
    else
      let s := { s with messageLog :=
        s.messageLog ++ [Message.assistantMsg thought toolId toolName toolArguments] }
      match dispatchToolCall cfg toolName toolArguments s with
      | (s1, .error e) => (s1, .error e)
      | (s1, .ok obs) =>
        let nextStepPrompt := cfg.nextStepPromptTemplate (pyStrOfOpt s1.openFileRelativePath)
        let s2 := { s1 with messageLog := s1.messageLog ++
          [Message.userMsg toolId obs.observationDescription
            obs.summarisedObservationDescription nextStepPrompt obs.reviewComment] }
        match (match s2.openFileRelativePath with
               | some p => (s2.codebase.retrieve_file p).map (fun f => some f.contents)
               | none => .ok none : Except PyExc (Option String)) with
        | .error e => (s2, .error e)
        | .ok fileViewerContent =>
          let ts : TrajectoryStep :=
            { stepNumber := s2.stepNumber, thought := thought, toolName := toolName,
              toolArguments := toolArguments, terminalOutput := obs.terminalOutput,
              terminalContent := obs.terminalContent,
              fileViewerChanged := obs.fileViewerChanged,
              openFileName := s2.openFileRelativePath,
              fileViewerContent := fileViewerContent,
              reviewComment := obs.reviewComment }
          ({ s2 with trajectory := s2.trajectory ++ [ts] }, .ok ())

/-- Embeds `Agent.finish` (`agent.py` lines 174-182): flush the codebase
snapshot and the trajectory to durable storage, unconditionally. -/
def Agent.finish (s : AgentState) : AgentState :=
  { s with writtenCodebase := some s.codebase.diskSnapshot,
           writtenTrajectory := some s.trajectory }

/-- One iteration of the `while` body of `Agent.run`: run the step; on any
exception, swallow it and set `error_occured`. -/
def Agent.stepCaught (cfg : Config) (turn : ModelTurn) (s : AgentState) : AgentState :=
  match Agent.step cfg turn s with
  | (s1, .ok _) => s1
  | (s1, .error _) => { s1 with errorOccured := true }

/-- The `while not self.task_completed` loop of `Agent.run` (`agent.py`
lines 86-97), with fuel bounding the number of iterations observed: `none`
means the loop had not exited within `fuel` iterations. The model's turn for
an iteration is indexed by the step counter at the top of the iteration. -/
def Agent.runAux (cfg : Config) (turns : Nat → ModelTurn) :
    Nat → AgentState → Option AgentState
  | 0, _ => none
  | fuel + 1, s =>
    if s.taskCompleted then some s
    else Agent.runAux cfg turns fuel (Agent.stepCaught cfg (turns s.stepNumber) s)

/-- Embeds `Agent.run`: iterate `step` until the completion flag is set, then
`finish`. `none` means the loop had not terminated within `fuel`
iterations (and `finish` was therefore not reached). -/
def Agent.run (cfg : Config) (turns : Nat → ModelTurn) (fuel : Nat)
    (s : AgentState) : Option AgentState :=
  (Agent.runAux cfg turns fuel s).map Agent.finish

/-! ## Sequences of file operations (for the version-history invariant) -/

/-- A file-mutating tool invocation: `edit_file` with its two arguments, or
`create_file` with its two arguments. -/
inductive FileOp where
  | editOp (commitMessage newFileContents : String)
  | createOp (filePath fileContents : String)

/-- Applies one file operation through the tool dispatch, keeping the
resulting state whether or not the invocation succeeded. -/
def applyFileOp (cfg : Config) (op : FileOp) (s : AgentState) : AgentState :=
  match op with
  | .editOp cm nfc =>
      (dispatchToolCall cfg "edit_file"
        [("commit_message", .str cm), ("new_file_contents", .str nfc)] s).1
  | .createOp p c =>
      (dispatchToolCall cfg "create_file"
        [("file_path", .str p), ("file_contents", .str c)] s).1

/-- Applies a sequence of file operations in order. -/
def applyFileOps (cfg : Config) : List FileOp → AgentState → AgentState
  | [], s => s
  | op :: rest, s => applyFileOps cfg rest (applyFileOp cfg op s)

/-! ## Concrete instances used by the closed theorems and witnesses -/

/-- A concrete configuration: no lint findings, quiet sandbox runs. -/
def exampleConfig : Config :=
  { nextStepPromptTemplate := fun openFile =>
      "Open file: " ++ openFile ++ ". What is the next step?",
    lint := fun _ => none,
    runScript := fun _ _ _ _ => { stdout := "", stderr := "", exitCode := 0 },
    runTests := fun _ _ => { stdout := "", stderr := "", exitCode := 0 } }

/-- A concrete ingested codebase holding one `.toml` and one `.py` file
(both match `Codebase.PATTERNS`). -/
def exampleCodebase : Codebase :=
  ⟨[("config.toml", ⟨"config.toml", ["x = 1\n"]⟩),
    ("main.py", ⟨"main.py", ["print(1)\n"]⟩)]⟩

/-- The agent state right after `Agent.__init__`: fresh counters and flags,
the instance message in the log. -/
def exampleInitialState : AgentState :=
  { codebase := exampleCodebase,
    messageLog := [Message.instanceMsg "Work on the task."],
    trajectory := [], stepNumber := 0, taskCompleted := false,
    errorOccured := false, openFileRelativePath := none }

/-- Well-formedness of a codebase: every tracked file has at least one
version. This holds for every codebase the source can build, because
`SourceFile.__init__` appends the initial contents. -/
def codebaseWF (cb : Codebase) : Bool :=
  cb.files.all (fun kv => !kv.2.versions.isEmpty)

/-- A concrete three-step model schedule: open the ingested `.toml` file,
edit it (a recoverable tool-level error: the `python_file` unbound local
escapes the step), then declare the task complete. -/
def exampleThreeStepTurns : Nat → ModelTurn
  | 0 => .propose "open the config" "id1" "open_file" [("file_path", .str "config.toml")]
  | 1 => .propose "edit the config" "id2" "edit_file"
      [("commit_message", .str "update config"), ("new_file_contents", .str "x = 2\n")]
  | 2 => .propose "done" "id3" "complete_task" []
  | _ => .raises

/-- A concrete six-entry conversation log: the task descriptor followed by
alternating proposals and outcomes. -/
def exampleMessageLog : List Message :=
  [.instanceMsg "task description",
   .assistantMsg "look at the file" "i1" "open_file" [("file_path", .str "main.py")],
   .userMsg "i1" "full observation 1" "summary 1" "next prompt 1" none,
   .assistantMsg "edit the file" "i2" "edit_file"
     [("commit_message", .str "fix bug"), ("new_file_contents", .str "print(2)\n")],
   .userMsg "i2" "full observation 2" "summary 2" "next prompt 2" (some "review note"),
   .assistantMsg "wrap up" "i3" "complete_task" []]

/-- The example state with the ingested `.toml` file open in the viewer. -/
def exampleStateOpenToml : AgentState :=
  { exampleInitialState with openFileRelativePath := some "config.toml" }

/-! ## Helper lemmas about the dictionary model -/

theorem pyDictGet?_set_self {α : Type} (d : PyDict α) (k : String) (v : α) :
    pyDictGet? (pyDictSet d k v) k = some v := by
  induction d with
  | nil => simp [pyDictSet, pyDictGet?]
  | cons hd tl ih =>
    by_cases h : hd.1 = k
    · simp [pyDictSet, pyDictGet?, h]
    · simpa [pyDictSet, pyDictGet?, h] using ih

theorem pyDictGet?_set_ne {α : Type} (d : PyDict α) (k : String) (v : α)
    (k' : String) (h : k' ≠ k) :
    pyDictGet? (pyDictSet d k v) k' = pyDictGet? d k' := by
  induction d with
  | nil =>
    simp only [pyDictSet, pyDictGet?, List.find?_cons, List.find?_nil]
    have h1 : ¬((k : String) = k') := fun he => h he.symm
    simp [h1]
  | cons hd tl ih =>
    by_cases h1 : hd.1 = k
    · subst h1
      have h2 : ¬(hd.1 = k') := fun he => h (he ▸ rfl)
      simp [pyDictSet, pyDictGet?, h2, Ne.symm h]
    · by_cases h2 : hd.1 = k'
      · simp [pyDictSet, pyDictGet?, h1, h2, h]
      · simpa [pyDictSet, pyDictGet?, h1, h2] using ih

theorem pyDictGet?_eq_none_of_not_mem_keys {α : Type} (d : PyDict α) (k : String)
    (h : k ∉ d.map (fun kv => kv.1)) : pyDictGet? d k = none := by
  induction d with
  | nil => rfl
  | cons hd tl ih =>
    simp only [List.map_cons, List.mem_cons, not_or] at h
    have h1 : ¬(hd.1 = k) := fun he => h.1 he.symm
    simpa [pyDictGet?, h1] using ih h.2

theorem pyDictGet?_isSome_of_mem_keys {α : Type} (d : PyDict α) (k : String)
    (h : k ∈ d.map (fun kv => kv.1)) : ∃ v, pyDictGet? d k = some v := by
  induction d with
  | nil => simp at h
  | cons hd tl ih =>
    by_cases h1 : hd.1 = k
    · exact ⟨hd.2, by simp [pyDictGet?, h1]⟩
    · have h2 : k ∈ tl.map (fun kv => kv.1) := by
        rw [List.map_cons] at h
        rcases List.mem_cons.mp h with he | ht
        · exact absurd he.symm h1
        · exact ht
      obtain ⟨v, hv⟩ := ih h2
      exact ⟨v, by simpa [pyDictGet?, h1] using hv⟩

theorem pyDictSet_all {α : Type} (d : PyDict α) (k : String) (v : α)
    (P : String × α → Bool) (hall : d.all P = true) (hv : P (k, v) = true) :
    (pyDictSet d k v).all P = true := by
  induction d with
  | nil => simpa [pyDictSet]
  | cons hd tl ih =>
    simp only [List.all_cons, Bool.and_eq_true] at hall
    by_cases h : hd.1 = k
    · simp [pyDictSet, h, hv, hall.2]
    · simp [pyDictSet, h, hall.1, ih hall.2, hv]

/-! ## Claim theorems -/

/-- C1: the claim says a tool invocation with invalid arguments returns an
`Observation` carrying the model-readable error string, with validation
performed before execution and no exception escaping. On the code this
fails: `Tool.use` evaluates `self.self.validate_arguments()`, and a `Tool`
instance has no attribute `self`, so every invocation — whatever its
arguments, and whichever tool — raises `AttributeError` out of `use` before
any validation runs, leaving the state untouched and the underlying
validate-and-execute path unreached. -/
theorem tool_use_always_raises_attribute_error
    (underlying : AgentState → AgentState × Except PyExc Observation)
    (s : AgentState) :
    Tool.use underlying s = (s, .error (.attributeError "self")) := rfl

/-- C3: the claim says both sandbox tools classify success/failure strictly
by process exit status, never by presence of stderr text. For
`run_all_tests` this holds (`tests_passed` comes from `CalledProcessError`,
i.e. the exit status). For `run_python_script` it fails: the observation is
a function of the captured streams only (first conjunct: the exit status is
discarded), a run that exited 1 with output on stdout and empty stderr is
rendered as a success, and a run that exited 0 with text on stderr is
rendered as a failure. -/
theorem run_script_classification_ignores_exit_status :
    (∀ (scriptPath environment stdout stderr : String) (e1 e2 : Nat),
      runPythonScriptObservation scriptPath environment stdout stderr e1 =
        runPythonScriptObservation scriptPath environment stdout stderr e2) ∧
    (runPythonScriptObservation "script.py" "python3" "output line" "" 1).summarisedObservationDescription =
      "Ran the Python script \x27script.py\x27 in the \x27python3\x27 environment.The script ran successfully with no errors." ∧
    (runPythonScriptObservation "script.py" "python3" "" "DeprecationWarning: foo" 0).summarisedObservationDescription =
      "Ran the Python script \x27script.py\x27 in the \x27python3\x27 environment.The script ran with errors." ∧
    (runAllTestsObservation "python3" "" "" 1).summarisedObservationDescription =
      "Ran all tests in the codebase in the \x27python3\x27 environment.\nThere were errors when running the tests." ∧
    (runAllTestsObservation "python3" "" "collected 3 items" 0).summarisedObservationDescription =
      "Ran all tests in the codebase in the \x27python3\x27 environment.\nAll tests ran successfully with no errors." :=
  ⟨fun _ _ _ _ _ _ => rfl, rfl, rfl, rfl, rfl⟩

/-- C9: the claim says a tool parameter descriptor may carry an optional
enumeration, so declaring `run_python_script` / `run_all_tests` (whose
class bodies pass `enum=["python2", "python3"]`) yields a well-formed,
registrable descriptor. On the code this fails at declaration time: the
`Parameter` dataclass declares only `name`, `type`, `description` and
`required`, so the `Parameter(..., enum=...)` calls in the class bodies
raise `TypeError` when the module is imported. -/
theorem parameters_enum_keyword_raises_type_error :
    runPythonScriptParametersSource =
      .error (.typeError "Parameter.__init__() got an unexpected keyword argument \x27enum\x27") ∧
    runAllTestsParametersSource =
      .error (.typeError "Parameter.__init__() got an unexpected keyword argument \x27enum\x27") :=
  ⟨rfl, rfl⟩

/-- C5: the claim says every completed run of `N` steps records a trajectory
of length `N` with step numbers exactly `1..N`, including runs in which
some steps raised recoverable errors. On the code this fails: `Agent.step`
increments `step_number` before anything that can raise, and `Agent.run`
swallows the exception without a trajectory record having been appended. In
the concrete three-step run below (open the ingested `.toml` file; edit it,
which raises the recoverable `python_file` unbound-local error out of the
step; complete the task) the run completes with `step_number = 3` but the
trajectory has length 2 with step numbers `[1, 3]` — a gap at step 2. -/
theorem trajectory_step_numbers_gap_on_recoverable_error :
    (Agent.run exampleConfig exampleThreeStepTurns 10 exampleInitialState).map
      (fun s => (s.stepNumber, s.taskCompleted, s.trajectory.map (fun t => t.stepNumber)))
      = some (3, true, [1, 3]) := by
  decide

theorem stepCaught_raises_taskCompleted (cfg : Config) (s : AgentState) :
    (Agent.stepCaught cfg ModelTurn.raises s).taskCompleted = s.taskCompleted := rfl

theorem runAux_all_raises_eq_none (cfg : Config) (fuel : Nat) :
    ∀ s : AgentState, s.taskCompleted = false →
      Agent.runAux cfg (fun _ => ModelTurn.raises) fuel s = none := by
  induction fuel with
  | zero => intro s _; rfl
  | succ n ih =>
    intro s h
    unfold Agent.runAux
    rw [h]
    simp only [Bool.false_eq_true, if_false]
    exact ih _ ((stepCaught_raises_taskCompleted cfg s).trans h)

/-- C2: the claim says every run terminates in a terminal state and — on the
successful and the errored path alike — still reaches `finish()` and flushes
both durable artifacts. On the code this fails: `Agent.run` catches the
exception from a failed step and re-enters `while not self.task_completed`
without terminating, so a run whose steps keep raising (with the shipped
`Tool.use`, every tool invocation raises — see C1) never exits the loop:
for every iteration bound, the loop has not reached `finish()`, and neither
the codebase snapshot nor `trajectory.json` has been written. -/
theorem run_never_reaches_finish_when_every_step_raises (cfg : Config) (fuel : Nat) :
    Agent.run cfg (fun _ => ModelTurn.raises) fuel exampleInitialState = none := by
  unfold Agent.run
  rw [runAux_all_raises_eq_none cfg fuel exampleInitialState rfl]
  rfl

/-- C4: with a configured window `K` and log length `N > K`, exactly the
entries with index below `N − K` render at reduced fidelity (the rendering
with the summarised flag set: summarised tool arguments for proposals,
summarised descriptions for outcomes) and exactly the entries with index in
`[N − K, N)` render at full fidelity; with `K` absent (`None`), every entry
renders at full fidelity. Confirmed against
`MessageLog.return_messages_list`. -/
theorem message_log_fidelity_window (msgs : List Message) (k i : Nat)
    (hk : k < msgs.length) :
    (MessageLog.returnMessagesList msgs (some (k : Int)))[i]? =
      msgs[i]?.map (fun m => renderMessage m (decide (i < msgs.length - k))) ∧
    (MessageLog.returnMessagesList msgs none)[i]? =
      msgs[i]?.map (fun m => renderMessage m false) := by
  constructor
  · unfold MessageLog.returnMessagesList
    rw [List.getElem?_map, List.getElem?_enum, Option.map_map]
    apply congrArg (fun f => Option.map f msgs[i]?)
    funext m
    simp only [Function.comp]
    apply congrArg (renderMessage m)
    rw [decide_eq_decide]
    omega
  · unfold MessageLog.returnMessagesList
    rw [List.getElem?_map, List.getElem?_enum, Option.map_map]
    apply congrArg (fun f => Option.map f msgs[i]?)
    funext m
    simp only [Function.comp]
    apply congrArg (renderMessage m)
    simp

/-- Witness for C4 at the spec's own example shape: a six-entry log with
window 2; index 3 lies in the reduced zone `[0, 4)` and renders summarised,
while the window-less rendering of the same index is full. -/
theorem message_log_fidelity_window_witness :
    2 < exampleMessageLog.length ∧
    ((MessageLog.returnMessagesList exampleMessageLog (some ((2 : Nat) : Int)))[3]? =
      exampleMessageLog[3]?.map
        (fun m => renderMessage m (decide (3 < exampleMessageLog.length - 2))) ∧
     (MessageLog.returnMessagesList exampleMessageLog none)[3]? =
      exampleMessageLog[3]?.map (fun m => renderMessage m false)) :=
  ⟨by decide, message_log_fidelity_window exampleMessageLog 2 3 (by decide)⟩

/-- C8: in every rendered conversation payload, the reviewer comment (when
present) and the next-step instruction text of an outcome entry appear
verbatim, in full, and identically at both fidelity tiers; only the
observation description switches between its full and summarised form.
Confirmed against `UserMessage.return_json_message` with
`include_review_comment=True`, as `MessageLog.return_messages_list` always
passes it. -/
theorem user_message_review_and_next_step_render_full
    (toolId observation summarisedObservation nextStepPrompt c : String)
    (b : Bool) (hc : c ≠ "") :
    userReturnJsonMessage toolId observation summarisedObservation nextStepPrompt
        (some c) b true =
      { role := "user",
        content := [ContentBlock.toolResult toolId
                      (if b then summarisedObservation else observation),
                    ContentBlock.text c, ContentBlock.text nextStepPrompt] } ∧
    userReturnJsonMessage toolId observation summarisedObservation nextStepPrompt
        none b true =
      { role := "user",
        content := [ContentBlock.toolResult toolId
                      (if b then summarisedObservation else observation),
                    ContentBlock.text nextStepPrompt] } := by
  constructor
  · simp [userReturnJsonMessage, pyTruthyStrOpt, hc]
  · simp [userReturnJsonMessage, pyTruthyStrOpt]

/-- Witness for C8: a concrete outcome with a review comment, rendered at the
reduced tier, keeps the review comment and the next-step prompt verbatim. -/
theorem user_message_review_and_next_step_render_full_witness :
    ("review note" ≠ "") ∧
    (userReturnJsonMessage "i2" "full observation" "summary" "next prompt"
        (some "review note") true true =
      { role := "user",
        content := [ContentBlock.toolResult "i2"
                      (if true then "summary" else "full observation"),
                    ContentBlock.text "review note", ContentBlock.text "next prompt"] } ∧
     userReturnJsonMessage "i2" "full observation" "summary" "next prompt"
        none true true =
      { role := "user",
        content := [ContentBlock.toolResult "i2"
                      (if true then "summary" else "full observation"),
                    ContentBlock.text "next prompt"] }) :=
  ⟨by decide,
   user_message_review_and_next_step_render_full "i2" "full observation" "summary"
     "next prompt" "review note" true (by decide)⟩

/-- C6: invoking `create_file` with a path already tracked by the codebase is
rejected with zero state mutation: the domain check raises `ValueError`
before `_use` can run, so the file map, every version list, the open-file
pointer and the run flags keep exactly their pre-call values (the returned
state is the input state). The rejection surfaces as the exception from the
`except` branch's broken `Observation(step=...)` construction rather than as
an error observation (see C1), but the invocation mutates nothing. -/
theorem create_file_existing_path_rejected_state_unchanged
    (cfg : Config) (s : AgentState) (path contents : String)
    (h : path ∈ s.codebase.get_relative_file_paths) :
    dispatchToolCall cfg "create_file"
      [("file_path", .str path), ("file_contents", .str contents)] s
      = (s, .error (.attributeError "step")) := by
  have hc : PyValue.inStrList (PyValue.str path) s.codebase.get_relative_file_paths = true := by
    simpa [PyValue.inStrList] using h
  have hval : CreateFileTool.validateArgumentValues s.codebase
      [("file_path", PyValue.str path), ("file_contents", PyValue.str contents)] =
      Except.error (PyExc.valueError ("The file \x27" ++ path ++
        "\x27 already exists in the codebase. " ++
        "The files in the codebase are:\n" ++ s.codebase.formatted_relative_file_paths)) := by
    unfold CreateFileTool.validateArgumentValues
    rw [show pyDictGet?
        [("file_path", PyValue.str path), ("file_contents", PyValue.str contents)] "file_path"
        = some (PyValue.str path) from rfl]
    simp [hc, PyValue.pyStr]
  simp only [dispatchToolCall, String.reduceEq, reduceIte]
  unfold Tool.useDocumented Tool.validateArguments
  rw [show validateAllParametersPresent "CreateFileTool" createFileParameters
      [("file_path", PyValue.str path), ("file_contents", PyValue.str contents)]
      = Except.ok () from rfl]
  simp only [bind, Except.bind, hval]
  rw [show errorObservationConstruction = Except.error (PyExc.attributeError "step") from rfl]

/-- Witness for C6: creating `config.toml`, which the example codebase
already tracks, is rejected and returns the state unchanged. -/
theorem create_file_existing_path_rejected_state_unchanged_witness :
    ("config.toml" ∈ exampleInitialState.codebase.get_relative_file_paths) ∧
    dispatchToolCall exampleConfig "create_file"
      [("file_path", .str "config.toml"), ("file_contents", .str "y = 2\n")]
      exampleInitialState
      = (exampleInitialState, .error (.attributeError "step")) :=
  ⟨by decide,
   create_file_existing_path_rejected_state_unchanged exampleConfig exampleInitialState
     "config.toml" "y = 2\n" (by decide)⟩

/-- C10: when the currently open file's path does not end in `.py` (for
example a `.toml` file, which the codebase does ingest — see
`Codebase.patternsList`), executing `edit_file` raises the `python_file`
unbound-local error while building the observation description, because the
flag is assigned only on the `.py` branch; the success path of `edit_file`
is total only for Python files. Confirmed against `EditFileTool._use`. -/
theorem edit_file_non_python_unbound_local
    (cfg : Config) (s : AgentState) (p commitMessage newFileContents : String)
    (hopen : s.openFileRelativePath = some p)
    (htracked : p ∈ s.codebase.get_relative_file_paths)
    (hnotpy : pyEndsWith p ".py" = false) :
    (EditFileTool.useImpl cfg
      [("commit_message", .str commitMessage),
       ("new_file_contents", .str newFileContents)] s).2
      = .error (.unboundLocalError "python_file") := by
  obtain ⟨f, hf⟩ := pyDictGet?_isSome_of_mem_keys s.codebase.files p htracked
  have hedit : s.codebase.edit_file p (editFileStrip newFileContents) =
      Except.ok ⟨pyDictSet s.codebase.files p
        ⟨f.relativeFilePath, f.versions ++ [editFileStrip newFileContents]⟩⟩ := by
    unfold Codebase.edit_file
    rw [hf]
  simp only [EditFileTool.useImpl,
    show argStr [("commit_message", PyValue.str commitMessage),
      ("new_file_contents", PyValue.str newFileContents)] "commit_message"
      = Except.ok commitMessage from rfl,
    show argStr [("commit_message", PyValue.str commitMessage),
      ("new_file_contents", PyValue.str newFileContents)] "new_file_contents"
      = Except.ok newFileContents from rfl,
    hopen, hedit, hnotpy, Bool.false_eq_true, if_false]

/-- Witness for C10: with the ingested `config.toml` open, `edit_file`
raises the `python_file` unbound-local error. -/
theorem edit_file_non_python_unbound_local_witness :
    (exampleStateOpenToml.openFileRelativePath = some "config.toml" ∧
     "config.toml" ∈ exampleStateOpenToml.codebase.get_relative_file_paths ∧
     pyEndsWith "config.toml" ".py" = false) ∧
    (EditFileTool.useImpl exampleConfig
      [("commit_message", .str "update config"),
       ("new_file_contents", .str "x = 2\n")] exampleStateOpenToml).2
      = .error (.unboundLocalError "python_file") :=
  ⟨⟨rfl, by decide, by decide⟩,
   edit_file_non_python_unbound_local exampleConfig exampleStateOpenToml
     "config.toml" "update config" "x = 2\n" rfl (by decide) (by decide)⟩

theorem versionsOf_edit_file_ok (cb : Codebase) (p c : String) (cb' : Codebase)
    (h : cb.edit_file p c = .ok cb') (path : String) :
    ∃ t, versionsOf cb' path = versionsOf cb path ++ t := by
  unfold Codebase.edit_file at h
  cases hf : pyDictGet? cb.files p with
  | none => rw [hf] at h; exact absurd h (by simp)
  | some f =>
    rw [hf] at h
    have hcb : cb' = ⟨pyDictSet cb.files p ⟨f.relativeFilePath, f.versions ++ [c]⟩⟩ := by
      cases h; rfl
    subst hcb
    by_cases hp : path = p
    · subst hp
      refine ⟨[c], ?_⟩
      unfold versionsOf
      rw [pyDictGet?_set_self, hf]
    · refine ⟨[], ?_⟩
      unfold versionsOf
      rw [pyDictGet?_set_ne _ _ _ _ hp, List.append_nil]

theorem codebaseWF_edit_file_ok (cb : Codebase) (p c : String) (cb' : Codebase)
    (h : cb.edit_file p c = .ok cb') (hwf : codebaseWF cb = true) :
    codebaseWF cb' = true := by
  unfold Codebase.edit_file at h
  cases hf : pyDictGet? cb.files p with
  | none => rw [hf] at h; exact absurd h (by simp)
  | some f =>
    rw [hf] at h
    have hcb : cb' = ⟨pyDictSet cb.files p ⟨f.relativeFilePath, f.versions ++ [c]⟩⟩ := by
      cases h; rfl
    subst hcb
    exact pyDictSet_all _ _ _ _ hwf (by simp)

theorem versionsOf_add_file_fresh (cb : Codebase) (p c : String)
    (hfresh : pyDictGet? cb.files p = none) (path : String) :
    ∃ t, versionsOf (cb.add_file p c) path = versionsOf cb path ++ t := by
  by_cases hp : path = p
  · subst hp
    refine ⟨[c], ?_⟩
    unfold versionsOf Codebase.add_file
    rw [pyDictGet?_set_self, hfresh]
    rfl
  · refine ⟨[], ?_⟩
    unfold versionsOf Codebase.add_file
    rw [pyDictGet?_set_ne _ _ _ _ hp, List.append_nil]

theorem codebaseWF_add_file (cb : Codebase) (p c : String)
    (hwf : codebaseWF cb = true) : codebaseWF (cb.add_file p c) = true :=
  pyDictSet_all _ _ _ _ hwf (by simp)

theorem editFileUseImpl_codebase_spec (cfg : Config) (args : ToolArgs) (s : AgentState) :
    (∀ path, ∃ t, versionsOf (EditFileTool.useImpl cfg args s).1.codebase path =
        versionsOf s.codebase path ++ t) ∧
    (codebaseWF s.codebase = true →
        codebaseWF (EditFileTool.useImpl cfg args s).1.codebase = true) := by
  unfold EditFileTool.useImpl
  cases argStr args "commit_message" with
  | error e =>
    exact ⟨fun path => ⟨[], (List.append_nil _).symm⟩, fun h => h⟩
  | ok cm =>
    cases argStr args "new_file_contents" with
    | error e =>
      exact ⟨fun path => ⟨[], (List.append_nil _).symm⟩, fun h => h⟩
    | ok nfc =>
      cases s.openFileRelativePath with
      | none =>
        exact ⟨fun path => ⟨[], (List.append_nil _).symm⟩, fun h => h⟩
      | some fp =>
        dsimp only
        cases hedit : s.codebase.edit_file fp (editFileStrip nfc) with
        | error e =>
          exact ⟨fun path => ⟨[], (List.append_nil _).symm⟩, fun h => h⟩
        | ok cb' =>
          by_cases hpy : pyEndsWith fp ".py" = true
          · simp only [hpy, if_true]
            exact ⟨versionsOf_edit_file_ok _ _ _ _ hedit,
                   codebaseWF_edit_file_ok _ _ _ _ hedit⟩
          · simp only [hpy, if_false]
            exact ⟨versionsOf_edit_file_ok _ _ _ _ hedit,
                   codebaseWF_edit_file_ok _ _ _ _ hedit⟩

theorem createFileUseImpl_codebase_spec (cfg : Config) (p c : String) (s : AgentState)
    (hfresh : pyDictGet? s.codebase.files p = none) :
    (∀ path, ∃ t, versionsOf (CreateFileTool.useImpl cfg
        [("file_path", .str p), ("file_contents", .str c)] s).1.codebase path =
        versionsOf s.codebase path ++ t) ∧
    (codebaseWF s.codebase = true →
        codebaseWF (CreateFileTool.useImpl cfg
          [("file_path", .str p), ("file_contents", .str c)] s).1.codebase = true) := by
  unfold CreateFileTool.useImpl
  simp only [show argStr [("file_path", PyValue.str p), ("file_contents", PyValue.str c)]
      "file_path" = Except.ok p from rfl,
    show argStr [("file_path", PyValue.str p), ("file_contents", PyValue.str c)]
      "file_contents" = Except.ok c from rfl]
  by_cases hpy : pyEndsWith p ".py" = true
  · simp only [hpy, if_true]
    exact ⟨versionsOf_add_file_fresh _ _ _ hfresh,
           fun hwf => codebaseWF_add_file _ _ _ hwf⟩
  · simp only [hpy, if_false]
    exact ⟨versionsOf_add_file_fresh _ _ _ hfresh,
           fun hwf => codebaseWF_add_file _ _ _ hwf⟩

theorem applyFileOp_spec (cfg : Config) (op : FileOp) (s : AgentState) :
    (∀ path, ∃ t, versionsOf (applyFileOp cfg op s).codebase path =
        versionsOf s.codebase path ++ t) ∧
    (codebaseWF s.codebase = true → codebaseWF (applyFileOp cfg op s).codebase = true) := by
  cases op with
  | editOp cm nfc =>
    have hd : applyFileOp cfg (.editOp cm nfc) s =
        (EditFileTool.useImpl cfg
          [("commit_message", .str cm), ("new_file_contents", .str nfc)] s).1 := by
      unfold applyFileOp
      simp only [dispatchToolCall, String.reduceEq, reduceIte, Tool.useDocumented,
        show Tool.validateArguments "EditFileTool" editFileParameters
          EditFileTool.validateArgumentValues
          [("commit_message", PyValue.str cm), ("new_file_contents", PyValue.str nfc)] s
          = Except.ok () from rfl]
    rw [hd]
    exact editFileUseImpl_codebase_spec cfg _ s
  | createOp p c =>
    by_cases hex : PyValue.inStrList (PyValue.str p) s.codebase.get_relative_file_paths = true
    · have hval : CreateFileTool.validateArgumentValues s.codebase
          [("file_path", PyValue.str p), ("file_contents", PyValue.str c)] =
          Except.error (PyExc.valueError ("The file \x27" ++ p ++
            "\x27 already exists in the codebase. " ++
            "The files in the codebase are:\n" ++ s.codebase.formatted_relative_file_paths)) := by
        unfold CreateFileTool.validateArgumentValues
        rw [show pyDictGet?
            [("file_path", PyValue.str p), ("file_contents", PyValue.str c)] "file_path"
            = some (PyValue.str p) from rfl]
        simp [hex, PyValue.pyStr]
      have hd : applyFileOp cfg (.createOp p c) s = s := by
        unfold applyFileOp
        simp only [dispatchToolCall, String.reduceEq, reduceIte]
        unfold Tool.useDocumented Tool.validateArguments
        rw [show validateAllParametersPresent "CreateFileTool" createFileParameters
            [("file_path", PyValue.str p), ("file_contents", PyValue.str c)]
            = Except.ok () from rfl]
        simp only [bind, Except.bind, hval]
        rw [show errorObservationConstruction
            = Except.error (PyExc.attributeError "step") from rfl]
      rw [hd]
      exact ⟨fun path => ⟨[], (List.append_nil _).symm⟩, fun h => h⟩
    · have hex' : PyValue.inStrList (PyValue.str p) s.codebase.get_relative_file_paths = false := by
        rwa [← Bool.not_eq_true]
      have hfresh : pyDictGet? s.codebase.files p = none := by
        apply pyDictGet?_eq_none_of_not_mem_keys
        intro hmem
        apply hex
        simpa [PyValue.inStrList, Codebase.get_relative_file_paths] using hmem
      have hval : CreateFileTool.validateArgumentValues s.codebase
          [("file_path", PyValue.str p), ("file_contents", PyValue.str c)] =
          Except.ok () := by
        unfold CreateFileTool.validateArgumentValues
        rw [show pyDictGet?
            [("file_path", PyValue.str p), ("file_contents", PyValue.str c)] "file_path"
            = some (PyValue.str p) from rfl]
        simp [hex']
      have hd : applyFileOp cfg (.createOp p c) s =
          (CreateFileTool.useImpl cfg
            [("file_path", .str p), ("file_contents", .str c)] s).1 := by
        unfold applyFileOp
        simp only [dispatchToolCall, String.reduceEq, reduceIte]
        unfold Tool.useDocumented Tool.validateArguments
        rw [show validateAllParametersPresent "CreateFileTool" createFileParameters
            [("file_path", PyValue.str p), ("file_contents", PyValue.str c)]
            = Except.ok () from rfl]
        simp only [bind, Except.bind, hval]
        rw [show validateArgumentTypes createFileParameters
            [("file_path", PyValue.str p), ("file_contents", PyValue.str c)]
            = Except.ok () from rfl]
      rw [hd]
      exact createFileUseImpl_codebase_spec cfg p c s hfresh

theorem applyFileOps_spec (cfg : Config) (ops : List FileOp) :
    ∀ s : AgentState,
    (∀ path, ∃ t, versionsOf (applyFileOps cfg ops s).codebase path =
        versionsOf s.codebase path ++ t) ∧
    (codebaseWF s.codebase = true → codebaseWF (applyFileOps cfg ops s).codebase = true) := by
  induction ops with
  | nil =>
    intro s
    exact ⟨fun path => ⟨[], (List.append_nil _).symm⟩, fun h => h⟩
  | cons op rest ih =>
    intro s
    obtain ⟨h1, h1wf⟩ := applyFileOp_spec cfg op s
    obtain ⟨h2, h2wf⟩ := ih (applyFileOp cfg op s)
    constructor
    · intro path
      obtain ⟨t1, ht1⟩ := h1 path
      obtain ⟨t2, ht2⟩ := h2 path
      refine ⟨t1 ++ t2, ?_⟩
      show versionsOf (applyFileOps cfg rest (applyFileOp cfg op s)).codebase path = _
      rw [ht2, ht1, List.append_assoc]
    · intro hwf
      exact h2wf (h1wf hwf)

theorem contentsOf_eq_getLast?_of_wf (cb : Codebase) (path : String)
    (h : codebaseWF cb = true) :
    contentsOf cb path = (versionsOf cb path).getLast? := by
  unfold contentsOf versionsOf
  cases hf : pyDictGet? cb.files path with
  | none => rfl
  | some f =>
    have hne : f.versions ≠ [] := by
      unfold pyDictGet? at hf
      cases hfind : cb.files.find? (fun kv => kv.1 = path) with
      | none => rw [hfind] at hf; exact absurd hf (by simp)
      | some kv =>
        rw [hfind] at hf
        have hkv : kv.2 = f := by
          simpa using hf
        have hmem := List.mem_of_find?_eq_some hfind
        unfold codebaseWF at h
        rw [List.all_eq_true] at h
        have := h kv hmem
        rw [hkv] at this
        simpa using this
    unfold SourceFile.contents
    show some (f.versions.getLastD "") = f.versions.getLast?
    rw [List.getLastD_eq_getLast?]
    cases hl : f.versions.getLast? with
    | none => exact absurd (List.getLast?_eq_none_iff.mp hl) hne
    | some x => rfl

/-- C7: for every tracked file, the version history is append-only and
historical snapshots are immutable: after any sequence of `edit_file` and
`create_file` tool invocations, the version list recorded for any path
extends the pre-sequence list (so every previously returned snapshot is
still in place, unchanged), and the current contents of every tracked file
equal the last element of its version list. The hypothesis states the
constructor invariant that every tracked file has at least one version. -/
theorem version_histories_append_only (cfg : Config) (ops : List FileOp)
    (s : AgentState) (path : String) (hwf : codebaseWF s.codebase = true) :
    (∃ t, versionsOf (applyFileOps cfg ops s).codebase path =
        versionsOf s.codebase path ++ t) ∧
    contentsOf (applyFileOps cfg ops s).codebase path =
      (versionsOf (applyFileOps cfg ops s).codebase path).getLast? := by
  obtain ⟨h1, h2⟩ := applyFileOps_spec cfg ops s
  exact ⟨h1 path, contentsOf_eq_getLast?_of_wf _ path (h2 hwf)⟩

/-- Witness for C7: a create followed by two edits of the created file, run
from the example state, extends the version list of `util.py` and keeps its
current contents equal to the last version. -/
theorem version_histories_append_only_witness :
    codebaseWF exampleInitialState.codebase = true ∧
    ((∃ t, versionsOf (applyFileOps exampleConfig
        [FileOp.createOp "util.py" "x = 1\n",
         FileOp.editOp "bump" "x = 2\n",
         FileOp.editOp "bump again" "x = 3\n"] exampleInitialState).codebase "util.py" =
        versionsOf exampleInitialState.codebase "util.py" ++ t) ∧
     contentsOf (applyFileOps exampleConfig
        [FileOp.createOp "util.py" "x = 1\n",
         FileOp.editOp "bump" "x = 2\n",
         FileOp.editOp "bump again" "x = 3\n"] exampleInitialState).codebase "util.py" =
      (versionsOf (applyFileOps exampleConfig
        [FileOp.createOp "util.py" "x = 1\n",
         FileOp.editOp "bump" "x = 2\n",
         FileOp.editOp "bump again" "x = 3\n"] exampleInitialState).codebase "util.py").getLast?) :=
  ⟨by decide,
   version_histories_append_only exampleConfig
     [FileOp.createOp "util.py" "x = 1\n",
      FileOp.editOp "bump" "x = 2\n",
      FileOp.editOp "bump again" "x = 3\n"] exampleInitialState "util.py" (by decide)⟩
